import Mathlib

/-!
Shallow embedding of the sensestr viewer/device CRUD services
(`src/server.js`, device service, and the viewer api of
`src/unnamed/part_000`).

Conventions of the embedding:
* Mongo `ObjectID` values are modelled as `Nat`; `Date` timestamps as `Nat`.
* A document collection is a `List` of documents; `findOne`/`updateOne`/
  `deleteOne` act on the first matching document, as the Mongo driver does.
* JavaScript runtime exceptions that the handlers can raise are modelled by
  the `JsError` type; a handler that would throw returns an `internal`
  response (Hapi surfaces an uncaught handler exception as a 500) and leaves
  the store untouched.
* The runtime is node 15.4 (see the Dockerfile): `Array.prototype.contains`
  and `Set.prototype.map` do not exist there, so evaluating
  `scopes.contains(...)` or `sessionSet.map(...)` throws a `TypeError`.
* Joi validation runs before the handlers: a validated `ownerId` payload
  field, when present, is a non-empty string, so JS truthiness of
  `payload.ownerId` coincides with presence of a non-empty string.
-/

/-- A JavaScript runtime exception raised inside a handler. -/
inductive JsError : Type where
  | referenceError (name : String)
  | typeError (msg : String)
deriving DecidableEq, Repr

/-- The credentials object built by the jwt `validate` callback:
`{ isMachine, user: token.sub, scopes: token.scopes || [], token }`. -/
structure Credentials where
  isMachine : Bool
  user : String
  scopes : List String
  token : String
deriving DecidableEq, Repr

/-- A stored viewer document, exactly the fields inserted by `POST /viewers`
(`{_id, createdDate, updatedDate, creatorId, updatorId, ownerId, sessionId}`).
A viewer document never has a `sessions` field. -/
structure ViewerDoc where
  _id : Nat
  createdDate : Nat
  updatedDate : Nat
  creatorId : String
  updatorId : String
  ownerId : String
  sessionId : Option Nat
deriving DecidableEq, Repr

/-- A stored device document, exactly the fields inserted by `POST /devices`. -/
structure DeviceDoc where
  _id : Nat
  createdDate : Nat
  updatedDate : Nat
  creatorId : String
  updatorId : String
  ownerId : String
  name : Option String
  description : Option String
  sessions : Option (List Nat)
deriving DecidableEq, Repr

/-- JS truthiness of an optional string field of a validated payload
(a validated string field, when present, is non-empty). -/
def jsStrTruthy : Option String → Bool
  | none => false
  | some s => s ≠ ""

/-- `request.auth.credentials.scopes.contains("impersonate_user")`:
`scopes` is a plain array and `Array.prototype.contains` does not exist in
node 15.4, so evaluating the call always throws a `TypeError`, whatever the
scopes are. -/
def scopesContains (_scopes : List String) (_s : String) : Except JsError Bool :=
  .error (.typeError "request.auth.credentials.scopes.contains is not a function")

/-- The variable `creatorId` read by the `POST /devices` handler
(`src/server.js` lines 206 and 210) is never declared in that handler
("use strict"), so evaluating it throws a `ReferenceError`. -/
def creatorIdRead : Except JsError String :=
  .error (.referenceError "creatorId is not defined")

/-- `sessionSet.map(...)` in the `PUT /devices/{id}` handler: `sessionSet`
is a `Set` and `Set.prototype.map` does not exist in node 15.4, so the call
throws a `TypeError`. -/
def sessionSetMap : Except JsError (List Nat) :=
  .error (.typeError "sessionSet.map is not a function")

/-- The first authorization condition shared by the viewer handlers and by
`PUT /devices/{id}`:
`payload.ownerId && payload.ownerId !== baselineOwnerId &&
 (!isMachine || !scopes.contains("impersonate_user"))`,
with JS short-circuit evaluation. The `scopes.contains` call is reached
exactly when the caller is a machine, and then it throws. -/
def impersonationCheck (payloadOwnerId : Option String) (baselineOwnerId : String)
    (cred : Credentials) : Except JsError Bool :=
  if jsStrTruthy payloadOwnerId then
    if payloadOwnerId.getD "" ≠ baselineOwnerId then
      if !cred.isMachine then .ok true
      else (scopesContains cred.scopes "impersonate_user").map (fun c => !c)
    else .ok false
  else .ok false

/-- The second authorization condition shared by all four mutating handlers:
`payload.ownerId && payload.ownerId === request.auth.credentials.user &&
 request.auth.credentials.isMachine`. Pure, never throws. -/
def machineSelfOwnerCheck (payloadOwnerId : Option String) (cred : Credentials) : Bool :=
  jsStrTruthy payloadOwnerId && payloadOwnerId.getD "" == cred.user && cred.isMachine

/-- The outcome of one handler invocation: the HTTP-shaped response.
`internal` is an uncaught JS exception, surfaced by Hapi as a 500. -/
inductive HandlerResp (β ε : Type) : Type where
  | ok (body : β) (events : List ε)
  | unauthorized (msg : String)
  | badRequest (msg : String)
  | notFound (msg : String)
  | internal (err : JsError)
deriving DecidableEq, Repr

/-- `collection.findOne({_id})`: the first document with the given id. -/
def findOneById {α : Type} (docId : α → Nat) (oid : Nat) (store : List α) : Option α :=
  store.find? (fun d => docId d == oid)

/-- `collection.updateOne(search, {$set: ...})`: apply `f` to the first
document matching the search, leave the rest unchanged. -/
def updateFirst {α : Type} (p : α → Bool) (f : α → α) : List α → List α
  | [] => []
  | d :: ds => if p d then f d :: ds else d :: updateFirst p f ds

/-- `collection.deleteOne(search)`: remove the first matching document. -/
def deleteFirst {α : Type} (p : α → Bool) : List α → List α
  | [] => []
  | d :: ds => if p d then ds else d :: deleteFirst p ds

/-- `new Set(list)` (insertion order, duplicates dropped), spread back into
an array by `[...sessionSet]`. -/
def jsSetOfList (l : List Nat) : List Nat :=
  l.foldl (fun acc x => if acc.contains x then acc else acc ++ [x]) []

/-- The body of `POST /viewers` and `PUT /viewers/{id}`, after Joi
validation: `{ownerId: Joi.string(), sessionId: Joi.objectId()}`, both
optional. -/
structure ViewerPayload where
  ownerId : Option String
  sessionId : Option Nat
deriving DecidableEq, Repr

/-- The body of `POST /devices` and `PUT /devices/{id}`, after Joi
validation: `{ownerId, name, description, sessions}`, all optional. -/
structure DevicePayload where
  ownerId : Option String
  name : Option String
  description : Option String
  sessions : Option (List Nat)
deriving DecidableEq, Repr

/-- A viewer JSON object as returned to the client. The `_id` field models
the store's raw `_id` key; `id` the string key added by the
`viewer.id = viewer._id.toString(); delete viewer._id` transform. Each is
`none` when the corresponding key is absent from the object. -/
structure ViewerBody where
  _id : Option Nat
  id : Option String
  createdDate : Nat
  updatedDate : Nat
  creatorId : String
  updatorId : String
  ownerId : String
  sessionId : Option Nat
deriving DecidableEq, Repr

/-- A device JSON object as returned to the client, with the same `_id`/`id`
convention as `ViewerBody`. -/
structure DeviceBody where
  _id : Option Nat
  id : Option String
  createdDate : Nat
  updatedDate : Nat
  creatorId : String
  updatorId : String
  ownerId : String
  name : Option String
  description : Option String
  sessions : Option (List Nat)
deriving DecidableEq, Repr

/-- `doc.id = doc._id.toString(); delete doc._id` applied to a stored
viewer document. -/
def viewerToBody (v : ViewerDoc) : ViewerBody :=
  { _id := none, id := some (toString v._id), createdDate := v.createdDate,
    updatedDate := v.updatedDate, creatorId := v.creatorId,
    updatorId := v.updatorId, ownerId := v.ownerId, sessionId := v.sessionId }

/-- `doc.id = doc._id.toString(); delete doc._id` applied to a stored
device document. -/
def deviceToBody (d : DeviceDoc) : DeviceBody :=
  { _id := none, id := some (toString d._id), createdDate := d.createdDate,
    updatedDate := d.updatedDate, creatorId := d.creatorId,
    updatorId := d.updatorId, ownerId := d.ownerId, name := d.name,
    description := d.description, sessions := d.sessions }

/-- An event record as emitted by the viewer service over the event socket:
`{event, token, viewerId, viewer}`. `viewerId` is `none` when the JS value
placed there is `undefined`. -/
structure ViewerEvent where
  event : String
  token : String
  viewerId : Option String
  viewer : ViewerBody
deriving DecidableEq, Repr

/-- Query parameters of the list endpoints after Joi validation and
defaulting: `skip` (min 0, default 0), `limit` (1..100, default 25),
optional `ownerId` and `sessionId`. -/
structure ListQuery where
  ownerId : Option String
  sessionId : Option Nat
  skip : Nat
  limit : Nat
deriving DecidableEq, Repr

/-- The `{metadata: {count, skip, limit, total}}` part of a list response. -/
structure ListMetadata where
  count : Nat
  skip : Nat
  limit : Nat
  total : Nat
deriving DecidableEq, Repr

/-- A list response `{metadata, results}`. -/
structure ListResp (β : Type) : Type where
  metadata : ListMetadata
  results : List β
deriving DecidableEq, Repr

/-- Whether a stored viewer document matches the search object built by
`GET /viewers`. The `ownerId` key matches on the document's `ownerId`
field. The session filter is stored under the key `sessions`
(`search.sessions = new ObjectID(sessionId)`), and a viewer document has no
`sessions` field (its session reference lives in `sessionId`), so a
non-null `sessions` query value matches no viewer document. -/
def viewerMatches (searchOwnerId : Option String) (searchSessions : Option Nat)
    (v : ViewerDoc) : Bool :=
  (match searchOwnerId with
    | none => true
    | some o => v.ownerId == o)
  && (match searchSessions with
    | none => true
    | some _ => false)

/-- Whether a stored device document matches the search object built by
`GET /devices`. Device documents do have a `sessions` array field; the
`{sessions: oid}` query matches a document whose array contains the id
(a document whose `sessions` is null matches no ObjectID query value). -/
def deviceMatches (searchOwnerId : Option String) (searchSessions : Option Nat)
    (d : DeviceDoc) : Bool :=
  (match searchOwnerId with
    | none => true
    | some o => d.ownerId == o)
  && (match searchSessions with
    | none => true
    | some oid =>
      match d.sessions with
      | some l => l.contains oid
      | none => false)

/-- The viewer documents matched by the `find(search)` of `GET /viewers`,
before skip and limit: the search object carries an `ownerId` key when the
query param is truthy and a `sessions` key when `sessionId` is present. -/
def viewersMatched (qOwnerId : Option String) (qSessionId : Option Nat)
    (store : List ViewerDoc) : List ViewerDoc :=
  store.filter (viewerMatches
    (if jsStrTruthy qOwnerId then some (qOwnerId.getD "") else none) qSessionId)

/-- The device documents matched by the `find(search)` of `GET /devices`,
before skip and limit. -/
def devicesMatched (qOwnerId : Option String) (qSessionId : Option Nat)
    (store : List DeviceDoc) : List DeviceDoc :=
  store.filter (deviceMatches
    (if jsStrTruthy qOwnerId then some (qOwnerId.getD "") else none) qSessionId)

/-- `GET /viewers`: builds the search from the truthy query params, runs
`find(search).skip(skip).limit(limit)`, reads `count({applySkipLimit:
true})` (matched docs after skip and limit), `count()` (matched docs
ignoring skip and limit), and the page itself, then applies the
`_id → id` transform to each returned document. -/
def viewersList (q : ListQuery) (store : List ViewerDoc) : ListResp ViewerBody :=
  let matched := viewersMatched q.ownerId q.sessionId store
  let paged := (matched.drop q.skip).take q.limit
  let md : ListMetadata :=
    { count := paged.length, skip := q.skip, limit := q.limit,
      total := matched.length }
  { metadata := md, results := paged.map viewerToBody }

/-- `GET /devices`: same pipeline as `viewersList`, over the devices
collection. -/
def devicesList (q : ListQuery) (store : List DeviceDoc) : ListResp DeviceBody :=
  let matched := devicesMatched q.ownerId q.sessionId store
  let paged := (matched.drop q.skip).take q.limit
  let md : ListMetadata :=
    { count := paged.length, skip := q.skip, limit := q.limit,
      total := matched.length }
  { metadata := md, results := paged.map deviceToBody }

/-- `POST /viewers` (`src/unnamed/part_000` lines 265-330). `freshId` is the
`new ObjectID()`, `now` the `new Date()` value. -/
def viewersPost (cred : Credentials) (payload : ViewerPayload) (freshId now : Nat)
    (store : List ViewerDoc) : HandlerResp ViewerBody ViewerEvent × List ViewerDoc :=
  let creatorId := cred.user
  let ownerId := if jsStrTruthy payload.ownerId then payload.ownerId.getD "" else creatorId
  match impersonationCheck payload.ownerId creatorId cred with
  | .error e => (.internal e, store)
  | .ok true =>
    (.unauthorized "You cannot create a viewer for another user without the impersonate_user scope.",
      store)
  | .ok false =>
    if machineSelfOwnerCheck payload.ownerId cred then
      (.badRequest "A machine cannot set themselves as the owner of this resource.", store)
    else
      let viewer : ViewerDoc :=
        { _id := freshId, createdDate := now, updatedDate := now,
          creatorId := cred.user, updatorId := cred.user, ownerId := ownerId,
          sessionId := payload.sessionId }
      let body := viewerToBody viewer
      let event : ViewerEvent :=
        { event := "viewer created", token := cred.token,
          viewerId := body.id, viewer := body }
      (.ok body [event], store ++ [viewer])

/-- `GET /viewers/{id}`. -/
def viewersGetOne (paramId : Nat) (store : List ViewerDoc) : HandlerResp ViewerBody ViewerEvent :=
  match findOneById ViewerDoc._id paramId store with
  | some viewer => .ok (viewerToBody viewer) []
  | none => .notFound ("Viewer with id " ++ toString paramId ++ " not found.")

/-- `PUT /viewers/{id}` (`src/unnamed/part_000` lines 393-473). -/
def viewersPut (cred : Credentials) (paramId : Nat) (payload : ViewerPayload) (now : Nat)
    (store : List ViewerDoc) : HandlerResp ViewerBody ViewerEvent × List ViewerDoc :=
  match findOneById ViewerDoc._id paramId store with
  | none => (.notFound ("Viewer with id " ++ toString paramId ++ " not found."), store)
  | some viewer =>
    let updatedDate := now
    let updatorId := cred.user
    let ownerId := if jsStrTruthy payload.ownerId then payload.ownerId.getD "" else viewer.ownerId
    match impersonationCheck payload.ownerId viewer.ownerId cred with
    | .error e => (.internal e, store)
    | .ok true =>
      (.unauthorized "You cannot change a viewer owner to another user without the impersonate_user scope.",
        store)
    | .ok false =>
      if machineSelfOwnerCheck payload.ownerId cred then
        (.badRequest "A machine cannot set themselves as the owner of this resource.", store)
      else
        let store2 := updateFirst (fun v => v._id == paramId)
          (fun v =>
            { v with updatedDate := updatedDate, updatorId := updatorId,
                     ownerId := ownerId, sessionId := payload.sessionId }) store
        -- const updatedViewer = {...viewer, updatedDate, updatorId, ownerId, sessionId}:
        -- spreading the raw store document keeps its `_id` key and adds no `id` key
        let updatedViewer : ViewerBody :=
          { _id := some viewer._id, id := none,
            createdDate := viewer.createdDate, updatedDate := updatedDate,
            creatorId := viewer.creatorId, updatorId := updatorId, ownerId := ownerId,
            sessionId := payload.sessionId }
        -- event = {event: 'viewer updated', token, viewerId: updatedViewer.id, viewer: updatedViewer}
        let event : ViewerEvent :=
          { event := "viewer updated", token := cred.token,
            viewerId := updatedViewer.id, viewer := updatedViewer }
        (.ok updatedViewer [event], store2)

/-- `DELETE /viewers/{id}` (`src/unnamed/part_000` lines 497-531): transform
the found document, `deleteOne`, emit the event, return the pre-delete
snapshot. -/
def viewersDelete (cred : Credentials) (paramId : Nat) (store : List ViewerDoc) :
    HandlerResp ViewerBody ViewerEvent × List ViewerDoc :=
  match findOneById ViewerDoc._id paramId store with
  | some viewer =>
    let body := viewerToBody viewer
    let store2 := deleteFirst (fun v => v._id == paramId) store
    let event : ViewerEvent :=
      { event := "viewer deleted", token := cred.token,
        viewerId := body.id, viewer := body }
    (.ok body [event], store2)
  | none => (.notFound ("Viewer with id " ++ toString paramId ++ " not found."), store)

/-- The first authorization condition of `POST /devices` (`src/server.js`
lines 208-213). Its `payload.ownerId !== creatorId` comparison reads the
undeclared `creatorId`, so it throws a `ReferenceError` whenever
`payload.ownerId` is truthy. -/
def devicesPostFirstCheck (payload : DevicePayload) (cred : Credentials) : Except JsError Bool :=
  if jsStrTruthy payload.ownerId then
    creatorIdRead.bind (fun creatorId =>
      if payload.ownerId.getD "" ≠ creatorId then
        if !cred.isMachine then .ok true
        else (scopesContains cred.scopes "impersonate_user").map (fun c => !c)
      else .ok false)
  else .ok false

/-- `POST /devices` (`src/server.js` lines 192-277). The handler's first
statement, `let ownerId = payload.ownerId ? payload.ownerId : creatorId`,
reads the undeclared `creatorId` when `payload.ownerId` is falsy; when it
is truthy the first authorization check reads it instead. -/
def devicesPost (cred : Credentials) (payload : DevicePayload) (freshId now : Nat)
    (store : List DeviceDoc) : HandlerResp DeviceBody Empty × List DeviceDoc :=
  match (if jsStrTruthy payload.ownerId
      then Except.ok (payload.ownerId.getD "") else creatorIdRead) with
  | .error e => (.internal e, store)
  | .ok ownerId =>
    match devicesPostFirstCheck payload cred with
    | .error e => (.internal e, store)
    | .ok true =>
      (.unauthorized "You cannot create a device for another user without the impersonate_user scope.",
        store)
    | .ok false =>
      if machineSelfOwnerCheck payload.ownerId cred then
        (.badRequest "A machine cannot set themselves as the owner of this resource.", store)
      else
        let device : DeviceDoc :=
          { _id := freshId, createdDate := now, updatedDate := now,
            creatorId := cred.user, updatorId := cred.user, ownerId := ownerId,
            name := payload.name, description := payload.description,
            sessions := payload.sessions }
        (.ok (deviceToBody device) [], store ++ [device])

/-- `GET /devices/{id}`. -/
def devicesGetOne (paramId : Nat) (store : List DeviceDoc) : HandlerResp DeviceBody Empty :=
  match findOneById DeviceDoc._id paramId store with
  | some device => .ok (deviceToBody device) []
  | none => .notFound ("Device with id " ++ toString paramId ++ " not found.")

/-- `PUT /devices/{id}` (`src/server.js` lines 320-422). After the document
is found, `const sessionIds = sessionSet.map(...)` runs before the
authorization checks and before `updateOne`, and throws. The remaining
branches transcribe the rest of the handler. -/
def devicesPut (cred : Credentials) (paramId : Nat) (payload : DevicePayload) (now : Nat)
    (store : List DeviceDoc) : HandlerResp DeviceBody Empty × List DeviceDoc :=
  match findOneById DeviceDoc._id paramId store with
  | none => (.notFound ("Device with id " ++ toString paramId ++ " not found."), store)
  | some device =>
    let updatedDate := now
    let updatorId := cred.user
    let ownerId := if jsStrTruthy payload.ownerId then payload.ownerId.getD "" else device.ownerId
    let sessionSet := jsSetOfList (payload.sessions.getD [])
    match sessionSetMap with
    | .error e => (.internal e, store)
    | .ok sessionIds =>
      match impersonationCheck payload.ownerId device.ownerId cred with
      | .error e => (.internal e, store)
      | .ok true =>
        (.unauthorized "You cannot change a session owner to another user without the impersonate_user scope.",
          store)
      | .ok false =>
        if machineSelfOwnerCheck payload.ownerId cred then
          (.badRequest "A machine cannot set themselves as the owner of this resource.", store)
        else
          let store2 := updateFirst (fun d => d._id == paramId)
            (fun d =>
              { d with updatedDate := updatedDate, updatorId := updatorId,
                       ownerId := ownerId, name := payload.name,
                       description := payload.description,
                       sessions := some sessionIds }) store
          let body : DeviceBody :=
            { _id := some device._id, id := none,
              createdDate := device.createdDate, updatedDate := updatedDate,
              creatorId := device.creatorId, updatorId := updatorId, ownerId := ownerId,
              name := payload.name, description := payload.description,
              sessions := some sessionSet }
          (.ok body [], store2)

/-- `DELETE /devices/{id}` (`src/server.js` lines 424-465): the handler
finds the document, applies the `_id → id` transform and returns it; it
never issues a delete to the store. -/
def devicesDelete (paramId : Nat) (store : List DeviceDoc) :
    HandlerResp DeviceBody Empty × List DeviceDoc :=
  match findOneById DeviceDoc._id paramId store with
  | some device => (.ok (deviceToBody device) [], store)
  | none => (.notFound ("Device with id " ++ toString paramId ++ " not found."), store)

/-! ## Concrete fixtures used by the witnesses and counterexamples -/

/-- A human (non-machine) caller `u1` with no scopes. -/
def credHumanU1 : Credentials :=
  { isMachine := false, user := "u1", scopes := [], token := "tok1" }

/-- A machine caller `m1` with no scopes. -/
def credMachineM1 : Credentials :=
  { isMachine := true, user := "m1", scopes := [], token := "tok2" }

/-- A machine caller `m1` holding the `impersonate_user` scope. -/
def credMachineM1Imp : Credentials :=
  { isMachine := true, user := "m1", scopes := ["impersonate_user"], token := "tok3" }

/-- A stored viewer with id 5, owned by `u1`, referencing session 7. -/
def viewerDoc5 : ViewerDoc :=
  { _id := 5, createdDate := 1, updatedDate := 1, creatorId := "u1",
    updatorId := "u1", ownerId := "u1", sessionId := some 7 }

/-- A stored device with id 5, owned by `u1`. -/
def deviceDoc5 : DeviceDoc :=
  { _id := 5, createdDate := 1, updatedDate := 1, creatorId := "u1",
    updatorId := "u1", ownerId := "u1", name := some "Device One",
    description := none, sessions := some [7] }

/-- A viewer payload that does not set `ownerId`. -/
def vpayloadNoOwner : ViewerPayload := { ownerId := none, sessionId := some 7 }

/-- A viewer payload moving the session reference to session 9. -/
def vpayloadSession9 : ViewerPayload := { ownerId := none, sessionId := some 9 }

/-- A viewer payload that sets `ownerId` to `u2`. -/
def vpayloadOwnerU2 : ViewerPayload := { ownerId := some "u2", sessionId := none }

/-- A viewer payload that sets `ownerId` to `m1`. -/
def vpayloadOwnerM1 : ViewerPayload := { ownerId := some "m1", sessionId := none }

/-- A device payload that does not set `ownerId`. -/
def dpayloadNoOwner : DevicePayload :=
  { ownerId := none, name := some "Device One", description := none, sessions := none }

/-- A device payload that sets `ownerId` to `u2`. -/
def dpayloadOwnerU2 : DevicePayload :=
  { ownerId := some "u2", name := some "Device One", description := none, sessions := none }

/-- A device payload that sets `ownerId` to `m1`. -/
def dpayloadOwnerM1 : DevicePayload :=
  { ownerId := some "m1", name := some "Device One", description := none, sessions := none }

example : (viewersPost credHumanU1 vpayloadNoOwner 1 0 []).1
    = HandlerResp.ok (viewerToBody
        { _id := 1, createdDate := 0, updatedDate := 0, creatorId := "u1",
          updatorId := "u1", ownerId := "u1", sessionId := some 7 })
        [{ event := "viewer created", token := "tok1", viewerId := some "1",
           viewer := viewerToBody
             { _id := 1, createdDate := 0, updatedDate := 0, creatorId := "u1",
               updatorId := "u1", ownerId := "u1", sessionId := some 7 } }] := by
  rfl

example : (viewersPut credMachineM1 5 vpayloadOwnerU2 10 [viewerDoc5]).1
    = HandlerResp.internal
        (JsError.typeError "request.auth.credentials.scopes.contains is not a function") := by
  rfl

example : (viewersPut credHumanU1 5 vpayloadOwnerU2 10 [viewerDoc5]).1
    = HandlerResp.unauthorized
        "You cannot change a viewer owner to another user without the impersonate_user scope." := by
  rfl

example : (devicesPost credHumanU1 dpayloadNoOwner 1 0 []).1
    = HandlerResp.internal (JsError.referenceError "creatorId is not defined") := by
  rfl

example : (devicesPost credHumanU1 dpayloadOwnerU2 1 0 []).1
    = HandlerResp.internal (JsError.referenceError "creatorId is not defined") := by
  rfl

example : (devicesPut credHumanU1 5 dpayloadNoOwner 10 [deviceDoc5]).1
    = HandlerResp.internal (JsError.typeError "sessionSet.map is not a function") := by
  rfl

/-! ## Helper lemmas -/

/-- The projection of a viewer document onto the fields the spec declares
immutable: `_id`, `createdDate`, `creatorId`. -/
def viewerImmutables (v : ViewerDoc) : Nat × Nat × String :=
  (v._id, v.createdDate, v.creatorId)

/-- The projection of a device document onto `_id`, `createdDate`,
`creatorId`. -/
def deviceImmutables (d : DeviceDoc) : Nat × Nat × String :=
  (d._id, d.createdDate, d.creatorId)

theorem updateFirst_map_eq {α β : Type} (p : α → Bool) (f : α → α) (g : α → β)
    (hf : ∀ a, g (f a) = g a) : ∀ l : List α, (updateFirst p f l).map g = l.map g := by
  intro l
  induction l with
  | nil => rfl
  | cons x xs ih =>
    by_cases hp : p x
    · simp [updateFirst, hp, hf]
    · simp [updateFirst, hp, ih]

/-- `PUT /devices/{id}` never writes to the store: the request either misses
(`NotFound`) or dies on `sessionSet.map` before reaching `updateOne`. -/
theorem devicesPut_store_unchanged (cred : Credentials) (pid : Nat)
    (payload : DevicePayload) (now : Nat) (store : List DeviceDoc) :
    (devicesPut cred pid payload now store).2 = store := by
  unfold devicesPut
  cases findOneById DeviceDoc._id pid store with
  | none => rfl
  | some device => rfl

/-- On any viewer update request, the stored documents' `_id`, `createdDate`
and `creatorId` are unchanged (the `$set` touches only `updatedDate`,
`updatorId`, `ownerId`, `sessionId`). -/
theorem viewersPut_preserves_immutables (cred : Credentials) (pid : Nat)
    (payload : ViewerPayload) (now : Nat) (store : List ViewerDoc) :
    ((viewersPut cred pid payload now store).2).map viewerImmutables
      = store.map viewerImmutables := by
  simp only [viewersPut]
  split
  · rfl
  · split
    · rfl
    · rfl
    · split
      · rfl
      · dsimp only
        apply updateFirst_map_eq
        intro a
        rfl

/-- Shape of a successful `PUT /viewers/{id}` response: the body keeps the
raw `_id` key, has no `id` key, and exactly one `viewer updated` event is
emitted whose `viewerId` is the body's (absent) `id`. -/
theorem viewersPut_ok_shape (cred : Credentials) (pid : Nat) (payload : ViewerPayload)
    (now : Nat) (store : List ViewerDoc) (body : ViewerBody) (evs : List ViewerEvent)
    (h : (viewersPut cred pid payload now store).1 = HandlerResp.ok body evs) :
    body._id.isSome = true ∧ body.id = none
      ∧ evs = [{ event := "viewer updated", token := cred.token, viewerId := none,
                 viewer := body }] := by
  simp only [viewersPut] at h
  split at h
  · simp at h
  · split at h
    · simp at h
    · simp at h
    · split at h
      · simp at h
      · dsimp only at h
        cases h
        exact ⟨rfl, rfl, rfl⟩

/-- Shape of a successful `POST /viewers` response: the body is the
transformed document (`id` set, `_id` deleted). -/
theorem viewersPost_ok_shape (cred : Credentials) (payload : ViewerPayload)
    (freshId now : Nat) (store : List ViewerDoc) (body : ViewerBody)
    (evs : List ViewerEvent)
    (h : (viewersPost cred payload freshId now store).1 = HandlerResp.ok body evs) :
    body._id = none ∧ body.id = some (toString freshId) := by
  simp only [viewersPost] at h
  split at h
  · simp at h
  · simp at h
  · split at h
    · simp at h
    · dsimp only at h
      cases h
      exact ⟨rfl, rfl⟩

/-- Shape of a successful `GET /viewers/{id}` response: the body is the
transformed document. -/
theorem viewersGetOne_ok_shape (pid : Nat) (store : List ViewerDoc)
    (body : ViewerBody) (evs : List ViewerEvent)
    (h : viewersGetOne pid store = HandlerResp.ok body evs) :
    body._id = none ∧ body.id.isSome = true := by
  simp only [viewersGetOne] at h
  split at h
  · cases h
    exact ⟨rfl, rfl⟩
  · simp at h

/-- Shape of a successful `DELETE /viewers/{id}` response: the body is the
transformed pre-delete document. -/
theorem viewersDelete_ok_shape (cred : Credentials) (pid : Nat)
    (store : List ViewerDoc) (body : ViewerBody) (evs : List ViewerEvent)
    (h : (viewersDelete cred pid store).1 = HandlerResp.ok body evs) :
    body._id = none ∧ body.id.isSome = true := by
  simp only [viewersDelete] at h
  split at h
  · dsimp only at h
    cases h
    exact ⟨rfl, rfl⟩
  · simp at h

/-! ## Claims -/

/-- C1: the claim says every Create/Update that sets `ownerId` to a
different identity by a caller without the `impersonate_user` scope gets
`Unauthorized`. The code violates it twice: `POST /devices` reads the
undeclared `creatorId` and dies with a ReferenceError (a 500, not
`Unauthorized`) for every request that sets `ownerId`, and a machine caller
without the scope reaches `scopes.contains`, which does not exist on
arrays, so the request dies with a TypeError instead of `Unauthorized`. -/
theorem C1_ownership_unauthorized_failing_eval :
    (devicesPost credHumanU1 dpayloadOwnerU2 1 0 []).1
        = HandlerResp.internal (JsError.referenceError "creatorId is not defined")
      ∧ (viewersPut credMachineM1 5 vpayloadOwnerU2 10 [viewerDoc5]).1
        = HandlerResp.internal
            (JsError.typeError "request.auth.credentials.scopes.contains is not a function")
      ∧ (viewersPut credHumanU1 5 vpayloadOwnerU2 10 [viewerDoc5]).1
        = HandlerResp.unauthorized
            "You cannot change a viewer owner to another user without the impersonate_user scope." :=
  ⟨rfl, rfl, rfl⟩

/-- C2: the claim says a machine setting `ownerId` to its own id always
gets `BadRequest`. It holds on viewer Create, but `POST /devices` dies on
the undeclared `creatorId` (ReferenceError), and an Update whose current
owner differs from the caller runs into `scopes.contains` first
(TypeError), even when the `impersonate_user` scope is held. -/
theorem C2_machine_self_owner_failing_eval :
    (devicesPost credMachineM1 dpayloadOwnerM1 1 0 []).1
        = HandlerResp.internal (JsError.referenceError "creatorId is not defined")
      ∧ (viewersPut credMachineM1Imp 5 vpayloadOwnerM1 10 [viewerDoc5]).1
        = HandlerResp.internal
            (JsError.typeError "request.auth.credentials.scopes.contains is not a function")
      ∧ (viewersPost credMachineM1 vpayloadOwnerM1 1 0 []).1
        = HandlerResp.badRequest "A machine cannot set themselves as the owner of this resource." :=
  ⟨rfl, rfl, rfl⟩

/-- The viewer document created by `viewersPost credHumanU1 vpayloadNoOwner 1 0 []`. -/
def c3ViewerDoc : ViewerDoc :=
  { _id := 1, createdDate := 0, updatedDate := 0, creatorId := "u1",
    updatorId := "u1", ownerId := "u1", sessionId := some 7 }

/-- C3: the claim says Create without `ownerId` succeeds with
`ownerId == creatorId == callerId` on both resources. It holds for the
viewer service, but `POST /devices` evaluates the undeclared `creatorId`
in its `ownerId` default and dies with a ReferenceError on every request
without `ownerId`, so no device is ever created. -/
theorem C3_create_default_owner_failing_eval :
    (devicesPost credHumanU1 dpayloadNoOwner 1 0 []).1
        = HandlerResp.internal (JsError.referenceError "creatorId is not defined")
      ∧ (viewersPost credHumanU1 vpayloadNoOwner 1 0 []).1
        = HandlerResp.ok (viewerToBody c3ViewerDoc)
            [{ event := "viewer created", token := "tok1", viewerId := some "1",
               viewer := viewerToBody c3ViewerDoc }]
      ∧ (viewerToBody c3ViewerDoc).ownerId = credHumanU1.user
      ∧ (viewerToBody c3ViewerDoc).creatorId = credHumanU1.user :=
  ⟨rfl, rfl, rfl, rfl⟩

/-- C4: the claim says Delete removes the document on both resources. The
viewer handler does (`deleteOne`, then `NotFound` on re-Get), but the
device DELETE handler returns the found document without ever issuing a
delete, so the store is unchanged and a subsequent Get still succeeds. -/
theorem C4_delete_failing_eval :
    (devicesDelete 5 [deviceDoc5]).1 = HandlerResp.ok (deviceToBody deviceDoc5) []
      ∧ (devicesDelete 5 [deviceDoc5]).2 = [deviceDoc5]
      ∧ devicesGetOne 5 (devicesDelete 5 [deviceDoc5]).2
          = HandlerResp.ok (deviceToBody deviceDoc5) []
      ∧ (viewersDelete credHumanU1 5 [viewerDoc5]).1
          = HandlerResp.ok (viewerToBody viewerDoc5)
              [{ event := "viewer deleted", token := "tok1", viewerId := some "5",
                 viewer := viewerToBody viewerDoc5 }]
      ∧ (viewersDelete credHumanU1 5 [viewerDoc5]).2 = []
      ∧ viewersGetOne 5 (viewersDelete credHumanU1 5 [viewerDoc5]).2
          = HandlerResp.notFound "Viewer with id 5 not found." :=
  ⟨rfl, rfl, rfl, rfl, rfl, rfl⟩

/-- C5: for every existing device id, any payload and any caller, the
device PUT handler dies on `sessionSet.map` (a TypeError surfaced as an
internal error) before reaching `updateOne`, and the store is unchanged. -/
theorem C5_devices_put_always_internal (cred : Credentials) (pid : Nat)
    (payload : DevicePayload) (now : Nat) (store : List DeviceDoc) (d : DeviceDoc)
    (h : findOneById DeviceDoc._id pid store = some d) :
    (devicesPut cred pid payload now store).1
        = HandlerResp.internal (JsError.typeError "sessionSet.map is not a function")
      ∧ (devicesPut cred pid payload now store).2 = store := by
  constructor
  · unfold devicesPut
    rw [h]
    rfl
  · exact devicesPut_store_unchanged cred pid payload now store

theorem C5_witness :
    findOneById DeviceDoc._id 5 [deviceDoc5] = some deviceDoc5
      ∧ ((devicesPut credHumanU1 5 dpayloadNoOwner 10 [deviceDoc5]).1
            = HandlerResp.internal (JsError.typeError "sessionSet.map is not a function")
          ∧ (devicesPut credHumanU1 5 dpayloadNoOwner 10 [deviceDoc5]).2 = [deviceDoc5]) :=
  ⟨rfl, C5_devices_put_always_internal credHumanU1 5 dpayloadNoOwner 10 [deviceDoc5] deviceDoc5 rfl⟩

/-- C6: on every update request (in particular every accepted one), the
stored documents' `_id`, `createdDate` and `creatorId` are unchanged, on
both the viewer collection (the `$set` writes only `updatedDate`,
`updatorId`, `ownerId`, `sessionId`) and the device collection (whose PUT
never reaches `updateOne` at all). -/
theorem C6_update_preserves_immutable_fields (cred : Credentials) (pid : Nat)
    (vp : ViewerPayload) (dp : DevicePayload) (now : Nat)
    (vs : List ViewerDoc) (ds : List DeviceDoc) :
    ((viewersPut cred pid vp now vs).2).map viewerImmutables = vs.map viewerImmutables
      ∧ ((devicesPut cred pid dp now ds).2).map deviceImmutables = ds.map deviceImmutables :=
  ⟨viewersPut_preserves_immutables cred pid vp now vs, by
    rw [devicesPut_store_unchanged]⟩

/-- The response body of `viewersPut credHumanU1 5 vpayloadSession9 10 [viewerDoc5]`. -/
def c7Body : ViewerBody :=
  { _id := some 5, id := none, createdDate := 1, updatedDate := 10,
    creatorId := "u1", updatorId := "u1", ownerId := "u1", sessionId := some 9 }

/-- The event emitted by that update. -/
def c7Event : ViewerEvent :=
  { event := "viewer updated", token := "tok1", viewerId := none, viewer := c7Body }

/-- C7 counterexample: this successful viewer update emits exactly one
`viewer updated` event, but its `viewerId` is `undefined`
(`updatedViewer.id` does not exist because the updated record keeps the raw
`_id` key), not the updated viewer's id `"5"`. -/
theorem C7_event_viewerId_counterexample :
    (viewersPut credHumanU1 5 vpayloadSession9 10 [viewerDoc5]).1
        = HandlerResp.ok c7Body [c7Event]
      ∧ c7Event.viewerId = none
      ∧ toString viewerDoc5._id = "5"
      ∧ c7Event.viewerId ≠ some "5" :=
  ⟨rfl, rfl, rfl, by decide⟩

/-- C7 amended: every successful viewer Update emits exactly one
`viewer updated` event containing the event name, the caller token and the
updated resource, but its `viewerId` is absent (`undefined`), because the
updated record retains `_id` and has no `id` property. -/
theorem C7_amended_one_update_event (cred : Credentials) (pid : Nat)
    (payload : ViewerPayload) (now : Nat) (store : List ViewerDoc)
    (body : ViewerBody) (evs : List ViewerEvent)
    (h : (viewersPut cred pid payload now store).1 = HandlerResp.ok body evs) :
    evs = [{ event := "viewer updated", token := cred.token, viewerId := none,
             viewer := body }] :=
  (viewersPut_ok_shape cred pid payload now store body evs h).2.2

theorem C7_witness :
    [c7Event] = [{ event := "viewer updated", token := credHumanU1.token,
                   viewerId := none, viewer := c7Body }] :=
  C7_amended_one_update_event credHumanU1 5 vpayloadSession9 10 [viewerDoc5] c7Body
    [c7Event] rfl

/-- C8: whenever the viewer list query carries a `sessionId`, the search
object's `sessions` key matches no viewer document (they store the
reference under `sessionId`), so the result list is empty for every store
state and matched counts are 0. -/
theorem C8_session_filter_returns_empty (q : ListQuery) (store : List ViewerDoc)
    (sid : Nat) (h : q.sessionId = some sid) :
    (viewersList q store).results = []
      ∧ (viewersList q store).metadata.count = 0
      ∧ (viewersList q store).metadata.total = 0 := by
  have hm : viewersMatched q.ownerId q.sessionId store = [] := by
    rw [viewersMatched, h, List.filter_eq_nil_iff]
    intro a _
    simp [viewerMatches]
  refine ⟨?_, ?_, ?_⟩ <;> simp [viewersList, hm]

/-- The query of the C8 witness: filter by session 7, which `viewerDoc5`
references. -/
def c8Query : ListQuery := { ownerId := none, sessionId := some 7, skip := 0, limit := 25 }

theorem C8_witness :
    (viewersList c8Query [viewerDoc5]).results = []
      ∧ (viewersList c8Query [viewerDoc5]).metadata.count = 0
      ∧ (viewersList c8Query [viewerDoc5]).metadata.total = 0 :=
  C8_session_filter_returns_empty c8Query [viewerDoc5] 7 rfl

/-- C9: for any store whose search matches 30 documents, List with
`limit=25, skip=0` returns 25 results with `total = 30` and `count = 25`,
and List with `limit=25, skip=25` returns 5 results, on both the viewer
and the device collection. -/
theorem C9_pagination (qo : Option String) (qs : Option Nat) (vs : List ViewerDoc)
    (dqo : Option String) (dqs : Option Nat) (ds : List DeviceDoc)
    (hv : (viewersMatched qo qs vs).length = 30)
    (hd : (devicesMatched dqo dqs ds).length = 30) :
    ((viewersList { ownerId := qo, sessionId := qs, skip := 0, limit := 25 } vs).results.length = 25
      ∧ (viewersList { ownerId := qo, sessionId := qs, skip := 0, limit := 25 } vs).metadata.total = 30
      ∧ (viewersList { ownerId := qo, sessionId := qs, skip := 0, limit := 25 } vs).metadata.count = 25
      ∧ (viewersList { ownerId := qo, sessionId := qs, skip := 25, limit := 25 } vs).results.length = 5)
    ∧ ((devicesList { ownerId := dqo, sessionId := dqs, skip := 0, limit := 25 } ds).results.length = 25
      ∧ (devicesList { ownerId := dqo, sessionId := dqs, skip := 0, limit := 25 } ds).metadata.total = 30
      ∧ (devicesList { ownerId := dqo, sessionId := dqs, skip := 0, limit := 25 } ds).metadata.count = 25
      ∧ (devicesList { ownerId := dqo, sessionId := dqs, skip := 25, limit := 25 } ds).results.length = 5) := by
  refine ⟨⟨?_, ?_, ?_, ?_⟩, ⟨?_, ?_, ?_, ?_⟩⟩ <;>
    simp [viewersList, devicesList, hv, hd]

/-- A viewer store of 30 documents (ids 0..29), all owned by `u1`. -/
def vs30 : List ViewerDoc :=
  (List.range 30).map (fun i =>
    { _id := i, createdDate := 0, updatedDate := 0, creatorId := "u1",
      updatorId := "u1", ownerId := "u1", sessionId := none })

/-- A device store of 30 documents (ids 0..29), all owned by `u1`. -/
def ds30 : List DeviceDoc :=
  (List.range 30).map (fun i =>
    { _id := i, createdDate := 0, updatedDate := 0, creatorId := "u1",
      updatorId := "u1", ownerId := "u1", name := some "Device One",
      description := none, sessions := none })

theorem C9_witness :
    ((viewersList { ownerId := none, sessionId := none, skip := 0, limit := 25 } vs30).results.length = 25
      ∧ (viewersList { ownerId := none, sessionId := none, skip := 0, limit := 25 } vs30).metadata.total = 30
      ∧ (viewersList { ownerId := none, sessionId := none, skip := 0, limit := 25 } vs30).metadata.count = 25
      ∧ (viewersList { ownerId := none, sessionId := none, skip := 25, limit := 25 } vs30).results.length = 5)
    ∧ ((devicesList { ownerId := none, sessionId := none, skip := 0, limit := 25 } ds30).results.length = 25
      ∧ (devicesList { ownerId := none, sessionId := none, skip := 0, limit := 25 } ds30).metadata.total = 30
      ∧ (devicesList { ownerId := none, sessionId := none, skip := 0, limit := 25 } ds30).metadata.count = 25
      ∧ (devicesList { ownerId := none, sessionId := none, skip := 25, limit := 25 } ds30).results.length = 5) :=
  C9_pagination none none vs30 none none ds30 (by rfl) (by rfl)

/-- C10: a successful viewer Update's response body keeps the raw `_id`
key and has no `id` key, while successful Get, Create and Delete responses
have `id` set and `_id` deleted. -/
theorem C10_put_response_keeps_raw_id (cred : Credentials) (pid gpid dpid : Nat)
    (payload cpayload : ViewerPayload) (now fresh cnow : Nat)
    (s1 s2 s3 s4 : List ViewerDoc)
    (pb gb cb db : ViewerBody)
    (pe ge ce de : List ViewerEvent)
    (hput : (viewersPut cred pid payload now s1).1 = HandlerResp.ok pb pe)
    (hget : viewersGetOne gpid s2 = HandlerResp.ok gb ge)
    (hpost : (viewersPost cred cpayload fresh cnow s3).1 = HandlerResp.ok cb ce)
    (hdel : (viewersDelete cred dpid s4).1 = HandlerResp.ok db de) :
    (pb._id.isSome = true ∧ pb.id = none)
      ∧ (gb._id = none ∧ gb.id.isSome = true)
      ∧ (cb._id = none ∧ cb.id.isSome = true)
      ∧ (db._id = none ∧ db.id.isSome = true) := by
  have hp := viewersPut_ok_shape cred pid payload now s1 pb pe hput
  have hc := viewersPost_ok_shape cred cpayload fresh cnow s3 cb ce hpost
  refine ⟨⟨hp.1, hp.2.1⟩, viewersGetOne_ok_shape gpid s2 gb ge hget,
    ⟨hc.1, ?_⟩, viewersDelete_ok_shape cred dpid s4 db de hdel⟩
  rw [hc.2]
  rfl

/-- The event emitted by the C10 witness's create. -/
def c10CreateEvent : ViewerEvent :=
  { event := "viewer created", token := "tok1", viewerId := some "1",
    viewer := viewerToBody c3ViewerDoc }

/-- The event emitted by the C10 witness's delete. -/
def c10DeleteEvent : ViewerEvent :=
  { event := "viewer deleted", token := "tok1", viewerId := some "5",
    viewer := viewerToBody viewerDoc5 }

theorem C10_witness :
    (c7Body._id.isSome = true ∧ c7Body.id = none)
      ∧ ((viewerToBody viewerDoc5)._id = none ∧ (viewerToBody viewerDoc5).id.isSome = true)
      ∧ ((viewerToBody c3ViewerDoc)._id = none ∧ (viewerToBody c3ViewerDoc).id.isSome = true)
      ∧ ((viewerToBody viewerDoc5)._id = none ∧ (viewerToBody viewerDoc5).id.isSome = true) :=
  C10_put_response_keeps_raw_id credHumanU1 5 5 5 vpayloadSession9 vpayloadNoOwner 10 1 0
    [viewerDoc5] [viewerDoc5] [] [viewerDoc5]
    c7Body (viewerToBody viewerDoc5) (viewerToBody c3ViewerDoc) (viewerToBody viewerDoc5)
    [c7Event] [] [c10CreateEvent] [c10DeleteEvent]
    rfl rfl rfl rfl



